import Mathlib

/-!
Verification of the side/back-channel module `pappl-retrofit/cups-side-back-channel.c`.

The C functions are shallowly embedded as executable Lean functions.  System
calls (`select`/`poll`, `read`, `write`, `malloc`) are modelled by explicit
oracles: a list of outcomes consumed in order, so each loop of the C code
becomes a recursion over the relevant oracle list (or over an explicit fuel
bound for the outer write loop).  Machine integers are modelled as `Int`,
bytes in buffers as `Nat` values, with `% 256` masks and an explicit
signed-`char` reinterpretation exactly where the C code reads bytes back as
`char`.  A model function returns `none` when its oracle list is exhausted,
i.e. when the corresponding C loop would still be waiting on further events.
-/

/-- Classification of an `errno` after a failed system call: the two
transient values the module tests for (`EINTR`, `EAGAIN`) and any other,
fatal, value. -/
inductive Errno
  | eintr
  | eagain
  | efatal
deriving DecidableEq

/-- Outcome of one `select`/`poll` readiness call: at least one descriptor
ready (return value ≥ 1), timeout (return value 0), or a failure (return
value < 0) carrying its `errno`. -/
inductive PollR
  | ready
  | timedOut
  | perr (e : Errno)
deriving DecidableEq

/-- Outcome of one `read` call: success with the bytes obtained, or a
failure carrying its `errno`. -/
inductive ReadR
  | rok (content : List Nat)
  | rerr (e : Errno)
deriving DecidableEq

/-- Outcome of one `write` call: success with the byte count the OS
accepted, or a failure carrying its `errno`. -/
inductive WriteR
  | wok (n : Nat)
  | werr (e : Errno)
deriving DecidableEq

/-- The value stored by a C `(char)` cast of an `int`: the low byte. -/
def toByte (n : Int) : Nat := (n % 256).toNat

/-- The `int` value obtained by reading a stored byte back through a signed
`char`, as the C code does for `buffer[0]` and `buffer[1]`. -/
def charVal (b : Nat) : Int :=
  if b % 256 < 128 then ((b % 256 : Nat) : Int) else ((b % 256 : Nat) : Int) - 256

/-- Read byte `i` of a buffer; positions past the modelled content read 0. -/
def cByte (xs : List Nat) (i : Nat) : Nat := xs.getD i 0

/-- C `strlen`: number of bytes before the first 0 byte (the end of the
modelled list also terminates). -/
def cStrlen (xs : List Nat) : Nat := (xs.takeWhile (fun b => b ≠ 0)).length

/-- C `strncmp(a, b, n) == 0`: the first `n` bytes agree, stopping early at
a common terminator. -/
def cStrncmpZ : List Nat → List Nat → Nat → Bool
  | _, _, 0 => true
  | a, b, n + 1 =>
    let x := a.headD 0
    let y := b.headD 0
    if x ≠ y then false
    else if x = 0 then true
    else cStrncmpZ a.tail b.tail n

/-- C `strcmp(a, b) == 0`: the strings agree up to their terminators. -/
def cStrcmpZ : List Nat → List Nat → Bool
  | [], b => b.headD 0 = 0
  | x :: a, b =>
    let y := b.headD 0
    if x ≠ y then false
    else if x = 0 then true
    else cStrcmpZ a b.tail

/-- Modelled from the spec: command codes of `pr_sc_command_t`; the private
header declaring the enumeration is not under `src/`, the spec states the
range is contiguous with a `none` sentinel below the first valid code. -/
def _PR_SC_CMD_NONE : Int := 0

/-- Modelled from the spec: first valid command code (soft reset). -/
def _PR_SC_CMD_SOFT_RESET : Int := 1

/-- Modelled from the spec: drain-output command code. -/
def _PR_SC_CMD_DRAIN_OUTPUT : Int := 2

/-- Modelled from the spec: get-bidi-support command code. -/
def _PR_SC_CMD_GET_BIDI : Int := 3

/-- Modelled from the spec: get-device-id command code. -/
def _PR_SC_CMD_GET_DEVICE_ID : Int := 4

/-- Modelled from the spec: get-state command code. -/
def _PR_SC_CMD_GET_STATE : Int := 5

/-- Modelled from the spec: snmp-get command code. -/
def _PR_SC_CMD_SNMP_GET : Int := 6

/-- Modelled from the spec: snmp-get-next command code. -/
def _PR_SC_CMD_SNMP_GET_NEXT : Int := 7

/-- Modelled from the spec: get-connected-clients command code. -/
def _PR_SC_CMD_GET_CONNECTED : Int := 8

/-- Modelled from the spec: one past the last valid command code. -/
def _PR_SC_CMD_MAX : Int := 9

/-- Modelled from the spec: status codes of `pr_sc_status_t` (`none` is the
send-only sentinel). -/
def _PR_SC_STATUS_NONE : Int := 0

/-- Modelled from the spec: ok status code. -/
def _PR_SC_STATUS_OK : Int := 1

/-- Modelled from the spec: io-error status code. -/
def _PR_SC_STATUS_IO_ERROR : Int := 2

/-- Modelled from the spec: timeout status code. -/
def _PR_SC_STATUS_TIMEOUT : Int := 3

/-- Modelled from the spec: no-response status code. -/
def _PR_SC_STATUS_NO_RESPONSE : Int := 4

/-- Modelled from the spec: bad-message status code. -/
def _PR_SC_STATUS_BAD_MESSAGE : Int := 5

/-- Modelled from the spec: too-big status code. -/
def _PR_SC_STATUS_TOO_BIG : Int := 6

/-- Modelled from the spec: not-implemented status code. -/
def _PR_SC_STATUS_NOT_IMPLEMENTED : Int := 7

/-- Modelled from the spec: busy status code. -/
def _PR_SC_STATUS_BUSY : Int := 8

/-- The side-channel readiness loop of `_prSideChannelRead` (source lines
285-300): `while ((nfds = poll(...)) < 0 && (errno == EINTR || errno ==
EAGAIN));` — it retries exactly on the transient errors and stops on any
other outcome.  Returns the final `poll` outcome, `none` if the oracle runs
out while the loop would still retry. -/
def pollLoop : List PollR → Option PollR
  | [] => none
  | PollR.perr Errno.eintr :: rest => pollLoop rest
  | PollR.perr Errno.eagain :: rest => pollLoop rest
  | r :: _ => some r

/-- The read loop of `_prSideChannelRead` (source lines 330-339):
`while ((bytes = read(...)) < 0) if (errno != EINTR && errno != EAGAIN)
fail;` — transient errors retry, a fatal error fails immediately
(`some none`), success yields the bytes obtained (`some (some content)`). -/
def readLoop : List ReadR → Option (Option (List Nat))
  | [] => none
  | ReadR.rok c :: _ => some (some c)
  | ReadR.rerr Errno.efatal :: _ => some none
  | ReadR.rerr _ :: rest => readLoop rest

/-- The write loop of `_prSideChannelWrite` (source lines 744-749):
`while (write(...) < 0) if (errno != EINTR && errno != EAGAIN) fail;` — a
single write retried only on transient errors; any non-negative count ends
the loop.  `some none` is the fatal-error exit, `some (some n)` the count
returned by the one write that did not fail. -/
def writeSyscallLoop : List WriteR → Option (Option Nat)
  | [] => none
  | WriteR.wok n :: _ => some (some n)
  | WriteR.werr Errno.efatal :: _ => some none
  | WriteR.werr _ :: rest => writeSyscallLoop rest

/-- Whether `writeSyscallLoop` ends with a successful write. -/
def writeLoopOk (l : List WriteR) : Bool :=
  match writeSyscallLoop l with
  | some (some _) => true
  | _ => false

/-- The back-channel readiness loop of `_prBackChannelRead` and
`_prBackChannelWrite` (source lines 85-94 and 147-156):
`do { status = select(...); } while (status < 0 && errno != EINTR && errno
!= EAGAIN);` — note the condition: the loop RETRIES on non-transient
failures and STOPS on `EINTR`/`EAGAIN` (or on ready/timeout).  Returns the
final outcome and the unconsumed oracle suffix. -/
def backWaitLoop : List PollR → Option (PollR × List PollR)
  | [] => none
  | PollR.perr Errno.efatal :: rest => backWaitLoop rest
  | r :: rest => some (r, rest)

/-- Frame construction of `_prSideChannelWrite` (source lines 728-742):
command byte, status byte, big-endian 2-byte length, then `datalen` data
bytes. -/
def encodeFrame (command status datalen : Int) (data : List Nat) : List Nat :=
  [toByte command, toByte status, toByte (datalen / 256), toByte (datalen % 256)]
    ++ (if datalen > 0 then data.take datalen.toNat else [])

/-- A well-formed frame with byte-sized fields, used to state what a reply
delivered by the oracle looks like. -/
def mkFrame (c s : Nat) (payload : List Nat) : List Nat :=
  [c, s, payload.length / 256, payload.length % 256] ++ payload

/-- Oracle for one `_prSideChannelWrite` call: the single `poll`/`select`
outcome (source lines 686-715 perform exactly one readiness call, with no
retry), whether the `malloc` of the frame buffer succeeds, and the write
outcomes. -/
structure WriteEnv where
  pollR : PollR
  mallocOk : Bool
  writes : List WriteR
deriving DecidableEq

/-- Observable result of `_prSideChannelWrite`: the C return value, whether
any readiness system call was made, the byte count accepted by the
successful write (if any), and the frame handed to `write` (if reached). -/
structure WriteResult where
  ret : Int
  polled : Bool
  written : Option Nat
  frame : Option (List Nat)
deriving DecidableEq

/-- `_prSideChannelWrite` (source lines 656-754).  Argument order and all
checks follow the source: range validation first (before any system call),
then one readiness call, then `malloc`, then the frame is built and handed
to the write loop.  The write loop accepts ANY non-negative count as
success, so `written` may be smaller than the frame. -/
def _prSideChannelWrite (command status : Int) (data : Option (List Nat))
    (datalen : Int) (env : WriteEnv) : Option WriteResult :=
  if command < _PR_SC_CMD_SOFT_RESET ∨ command ≥ _PR_SC_CMD_MAX ∨
      datalen < 0 ∨ datalen > 65535 ∨ (datalen > 0 ∧ data = none) then
    some ⟨-1, false, none, none⟩
  else if env.pollR ≠ PollR.ready then
    some ⟨-1, true, none, none⟩
  else if env.mallocOk = false then
    some ⟨-1, true, none, none⟩
  else
    let frame := encodeFrame command status datalen (data.getD [])
    match writeSyscallLoop env.writes with
    | none => none
    | some none => some ⟨-1, true, none, some frame⟩
    | some (some n) => some ⟨0, true, some (min n frame.length), some frame⟩

/-- Caller-visible arguments of `_prSideChannelRead`: whether the `command`
and `status` output pointers are null, the contents behind the `data`
pointer (`none` = null pointer), and the value behind `datalen`
(`none` = null pointer; otherwise the entry value, the buffer capacity). -/
structure ReadArgs where
  commandNull : Bool
  statusNull : Bool
  dataBuf : Option (List Nat)
  datalen : Option Int
deriving DecidableEq

/-- Observable result of `_prSideChannelRead`: C return value, the values
written through `command` and `status` (`none` = never written), the final
`*datalen`, the final contents of the caller's data buffer, and whether the
`memcpy` branch ran. -/
structure ReadResult where
  ret : Int
  command : Option Int
  status : Option Int
  datalen : Option Int
  dataBuf : Option (List Nat)
  copied : Bool
deriving DecidableEq

/-- Oracle for one `_prSideChannelRead` call. -/
structure ReadEnv where
  polls : List PollR
  mallocOk : Bool
  reads : List ReadR
deriving DecidableEq

/-- Decode logic of `_prSideChannelRead` once a message has been read
(source lines 345-411): reject short frames and out-of-range command bytes
with `CMD_NONE`/`BAD_MESSAGE` and return value -1; then take the declared
length from bytes 2-3 and, if it exceeds the caller's capacity or the bytes
actually read, set `*status = TOO_BIG` (keeping the already-stored command)
and return 0; otherwise copy the data and update `*datalen`. -/
def decodeFrame (args : ReadArgs) (content : List Nat) : ReadResult :=
  let buffer := content.take 65540
  let bytes : Int := buffer.length
  if bytes < 4 then
    ⟨-1, some _PR_SC_CMD_NONE, some _PR_SC_STATUS_BAD_MESSAGE,
      args.datalen, args.dataBuf, false⟩
  else if charVal (cByte buffer 0) < _PR_SC_CMD_SOFT_RESET ∨
      charVal (cByte buffer 0) ≥ _PR_SC_CMD_MAX then
    ⟨-1, some _PR_SC_CMD_NONE, some _PR_SC_STATUS_BAD_MESSAGE,
      args.datalen, args.dataBuf, false⟩
  else
    let cmd := charVal (cByte buffer 0)
    let templen : Int := ((cByte buffer 2 % 256) * 256 + cByte buffer 3 % 256 : Nat)
    if templen > 0 ∧ (args.dataBuf = none ∨ args.datalen = none) then
      ⟨0, some cmd, some _PR_SC_STATUS_TOO_BIG, args.datalen, args.dataBuf, false⟩
    else
      match args.datalen with
      | none =>
        ⟨0, some cmd, some _PR_SC_STATUS_TOO_BIG, none, args.dataBuf, false⟩
      | some cap =>
        if templen > cap ∨ templen > bytes - 4 then
          ⟨0, some cmd, some _PR_SC_STATUS_TOO_BIG, some cap, args.dataBuf, false⟩
        else
          ⟨0, some cmd, some (charVal (cByte buffer 1)), some templen,
            (match args.dataBuf with
             | none => none
             | some d => some ((buffer.drop 4).take templen.toNat ++ d.drop templen.toNat)),
            true⟩

/-- `_prSideChannelRead` (source lines 250-412): null-pointer check, the
transient-retrying readiness loop, `malloc` of the 65540-byte scratch
buffer, the transient-retrying read loop, then frame decoding. -/
def _prSideChannelRead (args : ReadArgs) (env : ReadEnv) : Option ReadResult :=
  if args.commandNull || args.statusNull then
    some ⟨-1, none, none, args.datalen, args.dataBuf, false⟩
  else
    match pollLoop env.polls with
    | none => none
    | some PollR.timedOut =>
      some ⟨-1, some _PR_SC_CMD_NONE, some _PR_SC_STATUS_TIMEOUT,
        args.datalen, args.dataBuf, false⟩
    | some (PollR.perr _) =>
      some ⟨-1, some _PR_SC_CMD_NONE, some _PR_SC_STATUS_IO_ERROR,
        args.datalen, args.dataBuf, false⟩
    | some PollR.ready =>
      if env.mallocOk = false then
        some ⟨-1, some _PR_SC_CMD_NONE, some _PR_SC_STATUS_TOO_BIG,
          args.datalen, args.dataBuf, false⟩
      else
        match readLoop env.reads with
        | none => none
        | some none =>
          some ⟨-1, some _PR_SC_CMD_NONE, some _PR_SC_STATUS_IO_ERROR,
            args.datalen, args.dataBuf, false⟩
        | some (some content) => some (decodeFrame args content)

/-- Oracle for one `_prBackChannelRead` call: the `select` outcomes for its
readiness loop and the outcome of the single `read`. -/
structure BackReadEnv where
  polls : List PollR
  readR : ReadR
deriving DecidableEq

/-- `_prBackChannelRead` (source lines 71-108): the inverted-condition wait
loop (`backWaitLoop`), then `if (status <= 0) return -1`, then ONE `read`
whose result is returned as is. -/
def _prBackChannelRead (bytes : Nat) (env : BackReadEnv) : Option Int :=
  match backWaitLoop env.polls with
  | none => none
  | some (r, _) =>
    if r = PollR.ready then
      some (match env.readR with
        | ReadR.rok c => ((min c.length bytes : Nat) : Int)
        | ReadR.rerr _ => -1)
    else some (-1)

/-- The write loop of `_prBackChannelWrite` (source lines 141-189): while
fewer than `bytes` bytes are transferred, wait for readiness (inverted
loop), fail on a non-ready wait, write the remaining bytes, absorb
transient write errors, abort with -1 on a fatal one, otherwise advance the
running total by the count the OS accepted.  On normal exit the C code
returns `(ssize_t)bytes`.  Also returns the total of accepted counts. -/
def backWriteLoop (fuel : Nat) (bytes total : Nat) (polls : List PollR)
    (writes : List WriteR) : Option (Int × Nat) :=
  match fuel with
  | 0 => none
  | fuel + 1 =>
    if total < bytes then
      match backWaitLoop polls with
      | none => none
      | some (r, polls') =>
        if r = PollR.ready then
          match writes with
          | [] => none
          | WriteR.wok n :: writes' =>
            backWriteLoop fuel bytes (total + min n (bytes - total)) polls' writes'
          | WriteR.werr Errno.efatal :: _ => some (-1, total)
          | WriteR.werr _ :: writes' => backWriteLoop fuel bytes total polls' writes'
        else some (-1, total)
    else some ((bytes : Int), total)

/-- `_prBackChannelWrite` (source lines 122-192), with fuel sufficient for
one loop iteration per readiness outcome in the oracle. -/
def _prBackChannelWrite (bytes : Nat) (polls : List PollR)
    (writes : List WriteR) : Option (Int × Nat) :=
  backWriteLoop (polls.length + 1) bytes 0 polls writes

/-- Caller-visible result of `_prSideChannelDoRequest`: the returned status
and the final `*datalen` and data buffer contents. -/
structure DoRequestResult where
  status : Int
  datalen : Option Int
  dataBuf : Option (List Nat)
deriving DecidableEq

/-- `_prSideChannelDoRequest` (source lines 211-232): send the command with
status `none` and no payload; a nonzero write or read return yields
`TIMEOUT`; a reply whose command differs from the request yields
`BAD_MESSAGE`; otherwise the received status is returned. -/
def _prSideChannelDoRequest (command : Int) (dataBuf : Option (List Nat))
    (datalen : Option Int) (wenv : WriteEnv) (renv : ReadEnv) :
    Option DoRequestResult :=
  match _prSideChannelWrite command _PR_SC_STATUS_NONE none 0 wenv with
  | none => none
  | some wr =>
    if wr.ret ≠ 0 then some ⟨_PR_SC_STATUS_TIMEOUT, datalen, dataBuf⟩
    else
      match _prSideChannelRead ⟨false, false, dataBuf, datalen⟩ renv with
      | none => none
      | some rr =>
        if rr.ret ≠ 0 then some ⟨_PR_SC_STATUS_TIMEOUT, rr.datalen, rr.dataBuf⟩
        else if rr.command ≠ some command then
          some ⟨_PR_SC_STATUS_BAD_MESSAGE, rr.datalen, rr.dataBuf⟩
        else some ⟨rr.status.getD _PR_SC_STATUS_NONE, rr.datalen, rr.dataBuf⟩

/-- Oracle for one `_prSideChannelSNMPGet` call: the write oracle, whether
the `malloc` of the 65540-byte response buffer succeeds, the (arbitrary)
initial contents of that buffer, and the read oracle. -/
structure SnmpEnv where
  wenv : WriteEnv
  scratchOk : Bool
  scratch : List Nat
  renv : ReadEnv
deriving DecidableEq

/-- Caller-visible result of `_prSideChannelSNMPGet`. -/
structure SnmpGetResult where
  status : Int
  datalen : Option Int
  dataBuf : Option (List Nat)
deriving DecidableEq

/-- `_prSideChannelSNMPGet` (source lines 438-509): argument validation,
`*data = '\0'`, the snmp-get request carrying the OID string and its
terminator, one read into the scratch buffer with capacity 65540, reply
command validation, and on an `OK` status the `oid\0value` parse: strip the
OID and its terminator, fail with `TOO_BIG` when the value plus terminator
exceeds the caller's capacity, else copy the value, terminate it, and set
`*datalen` to the value's byte count. -/
def _prSideChannelSNMPGet (oid : Option (List Nat)) (dataBuf : Option (List Nat))
    (datalen : Option Int) (env : SnmpEnv) : Option SnmpGetResult :=
  if oid = none ∨ cByte (oid.getD []) 0 = 0 ∨ dataBuf = none ∨ datalen = none ∨
      datalen.getD 0 < 2 then
    some ⟨_PR_SC_STATUS_BAD_MESSAGE, datalen, dataBuf⟩
  else
    let os := oid.getD []
    let db0 := (dataBuf.getD []).set 0 0
    let oslen := cStrlen os
    match _prSideChannelWrite _PR_SC_CMD_SNMP_GET _PR_SC_STATUS_NONE
        (some (os.take oslen ++ [0])) ((oslen : Int) + 1) env.wenv with
    | none => none
    | some wr =>
      if wr.ret ≠ 0 then some ⟨_PR_SC_STATUS_TIMEOUT, datalen, some db0⟩
      else if env.scratchOk = false then
        some ⟨_PR_SC_STATUS_TOO_BIG, datalen, some db0⟩
      else
        match _prSideChannelRead ⟨false, false, some env.scratch, some 65540⟩ env.renv with
        | none => none
        | some rr =>
          if rr.ret ≠ 0 then some ⟨_PR_SC_STATUS_TIMEOUT, datalen, some db0⟩
          else if rr.command ≠ some _PR_SC_CMD_SNMP_GET then
            some ⟨_PR_SC_STATUS_BAD_MESSAGE, datalen, some db0⟩
          else
            let st := rr.status.getD _PR_SC_STATUS_NONE
            if st = _PR_SC_STATUS_OK then
              let rbuf := rr.dataBuf.getD []
              let rdl := rr.datalen.getD 0
              let roidlen : Int := (cStrlen rbuf : Nat) + 1
              let vlen := rdl - roidlen
              if vlen + 1 > datalen.getD 0 then
                some ⟨_PR_SC_STATUS_TOO_BIG, datalen, some db0⟩
              else
                some ⟨st, some vlen,
                  some ((rbuf.drop roidlen.toNat).take vlen.toNat ++ 0 :: db0.drop (vlen.toNat + 1))⟩
            else some ⟨st, datalen, some db0⟩

/-- Oracle for one iteration of the walk loop: the write oracle and the
read oracle of that round. -/
structure WalkIterEnv where
  wenv : WriteEnv
  renv : ReadEnv
deriving DecidableEq

/-- One callback invocation recorded by the walk model: the OID string, the
value bytes, and the length argument passed to the callback. -/
structure WalkCall where
  oid : List Nat
  value : List Nat
  len : Int
deriving DecidableEq

/-- The walk loop of `_prSideChannelSNMPWalk` (source lines 575-639), one
recursion step per get-next round.  `root`/`oidlen` are the original
subtree OID and its `strlen`; `current` the buffer holding the OID to query
next; `last` the remembered previous OID; `rbuf` the current contents of
the malloc'd response buffer; `acc` the callback invocations so far.  The
subtree check, the repeat guard, the conditional null-termination at index
`real_datalen` (the C code compares against `sizeof(real_data)` which is
the SIZE OF THE POINTER, 8), the callback invocation, and the
`current`/`last` updates (the latter a 2047-byte `strlcpy`) follow the
source line by line. -/
def snmpWalkLoop (root : List Nat) (oidlen : Nat) :
    List WalkIterEnv → List Nat → List Nat → List Nat → List WalkCall →
    Option (Int × List WalkCall)
  | [], _, _, _, _ => none
  | e :: envs, current, last, rbuf, acc =>
    let curlen := cStrlen current
    match _prSideChannelWrite _PR_SC_CMD_SNMP_GET_NEXT _PR_SC_STATUS_NONE
        (some (current.take curlen ++ [0])) ((curlen : Int) + 1) e.wenv with
    | none => none
    | some wr =>
      if wr.ret ≠ 0 then some (_PR_SC_STATUS_TIMEOUT, acc)
      else
        match _prSideChannelRead ⟨false, false, some rbuf, some 65540⟩ e.renv with
        | none => none
        | some rr =>
          if rr.ret ≠ 0 then some (_PR_SC_STATUS_TIMEOUT, acc)
          else if rr.command ≠ some _PR_SC_CMD_SNMP_GET_NEXT then
            some (_PR_SC_STATUS_BAD_MESSAGE, acc)
          else
            let st := rr.status.getD _PR_SC_STATUS_NONE
            let buf := rr.dataBuf.getD []
            let dl := rr.datalen.getD 0
            if st = _PR_SC_STATUS_OK then
              if ¬ cStrncmpZ buf root oidlen ∨ cByte buf oidlen ≠ 46 ∨
                  cStrcmpZ buf last then
                some (_PR_SC_STATUS_OK, acc)
              else
                let buf' := if dl < 8 then buf.set dl.toNat 0 else buf
                let roidlen : Int := (cStrlen buf' : Nat) + 1
                let vlen := dl - roidlen
                let call : WalkCall :=
                  ⟨buf'.take (cStrlen buf'), (buf'.drop roidlen.toNat).take vlen.toNat, vlen⟩
                snmpWalkLoop root oidlen envs buf'
                  ((buf'.take (cStrlen buf')).take 2047) buf' (acc ++ [call])
            else some (st, acc)

/-- `_prSideChannelSNMPWalk` (source lines 541-644): argument validation,
`malloc` of the response buffer (initial contents `scratch`), then the walk
loop starting from the caller's OID with an empty `last_oid`. -/
def _prSideChannelSNMPWalk (oid : Option (List Nat)) (cbPresent : Bool)
    (mallocOk : Bool) (scratch : List Nat) (envs : List WalkIterEnv) :
    Option (Int × List WalkCall) :=
  if oid = none ∨ cByte (oid.getD []) 0 = 0 ∨ cbPresent = false then
    some (_PR_SC_STATUS_BAD_MESSAGE, [])
  else if mallocOk = false then some (_PR_SC_STATUS_TOO_BIG, [])
  else
    let os := oid.getD []
    snmpWalkLoop os (cStrlen os) envs os [] scratch []

/-- Follows the spec's words (§4.6, walk stop conditions), for comparison
with the code model: the walk reports exactly the replies of the longest
leading run in which each returned OID begins with the root followed by a
`.` separator (byte 46) and differs from the immediately preceding OID. -/
def walkSpecCalls (root : List Nat) :
    List (List Nat × List Nat) → List Nat → List (List Nat × List Nat)
  | [], _ => []
  | p :: rest, last =>
    if p.1.take root.length = root ∧ p.1.getD root.length 0 = 46 ∧ p.1 ≠ last then
      p :: walkSpecCalls root rest p.1
    else []

/-- The write oracle lets one `_prSideChannelWrite` call succeed: the
readiness call reports ready, the frame allocation succeeds, and the write
loop ends in a successful write. -/
def WEnvOkB (env : WriteEnv) : Bool :=
  decide (env.pollR = PollR.ready) && env.mallocOk && writeLoopOk env.writes

/-- The read oracle delivers exactly `content`: the readiness loop ends
ready, the allocation succeeds, and the read loop yields `content`. -/
def ReadDeliversB (env : ReadEnv) (content : List Nat) : Bool :=
  decide (pollLoop env.polls = some PollR.ready) && env.mallocOk &&
    decide (readLoop env.reads = some (some content))

/-- A well-formed walk reply `(oid, value)`: the OID is a nonempty
null-free string of at most 2047 bytes and the whole `oid\0value` payload
fits a frame. -/
def GoodReplyB (p : List Nat × List Nat) : Bool :=
  decide (0 ∉ p.1) && decide (p.1 ≠ []) && decide (p.1.length ≤ 2047) &&
    decide (p.1.length + 1 + p.2.length ≤ 65535)

/-- Each walk-round oracle performs a successful send and delivers an OK
get-next reply with the well-formed payload `oid\0value` of the matching
entry of `replies`. -/
def EnvsDeliver : List WalkIterEnv → List (List Nat × List Nat) → Bool
  | [], [] => true
  | e :: es, p :: ps =>
    WEnvOkB e.wenv && ReadDeliversB e.renv (mkFrame 7 1 (p.1 ++ 0 :: p.2)) &&
      GoodReplyB p && EnvsDeliver es ps
  | _, _ => false

/-- C3: claimed for every readiness wait in the back-channel and
side-channel operations, a transient `EINTR`/`EAGAIN` failure of the
`select`/`poll` call is retried invisibly.  The side-channel wait loop does
retry (second conjunct), but the back-channel wait loops of
`_prBackChannelRead`/`_prBackChannelWrite` have the condition inverted:
when `select` fails once with `EINTR` and the descriptor is ready on the
very next call, `_prBackChannelRead` returns -1 instead of retrying (first
conjunct), and it is the non-transient failures that are retried. -/
theorem C3_backchannel_wait_bug :
    _prBackChannelRead 10 ⟨[PollR.perr Errno.eintr, PollR.ready], ReadR.rok [1, 2, 3]⟩
        = some (-1) ∧
      pollLoop [PollR.perr Errno.eintr, PollR.ready] = some PollR.ready ∧
      backWaitLoop [PollR.perr Errno.eintr, PollR.ready]
        = some (PollR.perr Errno.eintr, [PollR.ready]) := by
  refine ⟨rfl, rfl, rfl⟩

/-- C9: when the command is out of the valid range, or the length is
negative or above 65535, or a positive length comes with a null data
pointer, `_prSideChannelWrite` fails with -1 before any readiness wait and
before any write: no system call is made and no bytes are handed to the
descriptor. -/
theorem C9_validation_before_io (command status : Int) (data : Option (List Nat))
    (datalen : Int) (env : WriteEnv)
    (h : command < _PR_SC_CMD_SOFT_RESET ∨ command ≥ _PR_SC_CMD_MAX ∨
      datalen < 0 ∨ datalen > 65535 ∨ (datalen > 0 ∧ data = none)) :
    _prSideChannelWrite command status data datalen env = some ⟨-1, false, none, none⟩ := by
  unfold _prSideChannelWrite
  rw [if_pos h]

/-- C9 witness: an out-of-range command (the `none` sentinel 0) fails with
no I/O even though the oracle would have allowed it. -/
theorem C9_validation_before_io_witness :
    ((0 : Int) < _PR_SC_CMD_SOFT_RESET ∨ (0 : Int) ≥ _PR_SC_CMD_MAX ∨
        (0 : Int) < 0 ∨ (0 : Int) > 65535 ∨ ((0 : Int) > 0 ∧ (none : Option (List Nat)) = none)) ∧
      _prSideChannelWrite 0 0 none 0 ⟨PollR.ready, true, [WriteR.wok 4]⟩
        = some ⟨-1, false, none, none⟩ :=
  ⟨by decide, C9_validation_before_io 0 0 none 0 ⟨PollR.ready, true, [WriteR.wok 4]⟩ (by decide)⟩

/-- C2 counterexample: a frame with the valid command byte 6 (snmp-get) and
declared length 65535 arriving as a 4-byte message is a decode failure of
the declared-length kind, but `_prSideChannelRead` returns 0 (its success
indicator, not -1) and stores the decoded command 6 (not the `none`
sentinel 0) through `outCommand`; only `outStatus` reports `too-big`. -/
theorem C2_counterexample :
    _prSideChannelRead ⟨false, false, some (List.replicate 10 0), some 10⟩
        ⟨[PollR.ready], true, [ReadR.rok [6, 1, 255, 255]]⟩
      = some ⟨0, some _PR_SC_CMD_SNMP_GET, some _PR_SC_STATUS_TOO_BIG,
          some 10, some (List.replicate 10 0), false⟩ := by
  decide

/-- C7 counterexample: a side-channel message send of a 5-byte payload
(frame of 9 bytes) against a descriptor that accepts only 2 bytes returns 0
(success) after that single partial write: the full header-plus-data frame
was not transferred. -/
theorem C7_counterexample :
    _prSideChannelWrite _PR_SC_CMD_SOFT_RESET _PR_SC_STATUS_NONE
        (some [10, 20, 30, 40, 50]) 5 ⟨PollR.ready, true, [WriteR.wok 2]⟩
      = some ⟨0, true, some 2, some [1, 0, 0, 5, 10, 20, 30, 40, 50]⟩ ∧
      (2 : Nat) ≠ [(1 : Nat), 0, 0, 5, 10, 20, 30, 40, 50].length := by
  decide

/-- Helper for C10: every branch of the decoder either runs the copy or
leaves the caller's `datalen` and data buffer exactly as they were. -/
theorem decodeFrame_cases (args : ReadArgs) (content : List Nat) :
    (decodeFrame args content).copied = true ∨
      ((decodeFrame args content).datalen = args.datalen ∧
        (decodeFrame args content).dataBuf = args.dataBuf) := by
  unfold decodeFrame
  dsimp only
  repeat' split
  all_goals simp_all

/-- C10: `_prSideChannelRead` writes through the in/out `datalen` pointer
only on the branch that actually copies data into the caller's buffer; on
every other outcome (null-pointer check, readiness failure, allocation
failure, read failure, short frame, bad command byte, too-big length) both
the caller's `datalen` and the data buffer keep their entry values. -/
theorem C10_datalen_untouched (args : ReadArgs) (env : ReadEnv) (r : ReadResult)
    (h : _prSideChannelRead args env = some r) (hc : r.copied = false) :
    r.datalen = args.datalen ∧ r.dataBuf = args.dataBuf := by
  unfold _prSideChannelRead at h
  split at h
  · cases h
    exact ⟨rfl, rfl⟩
  · split at h
    · simp at h
    · cases h
      exact ⟨rfl, rfl⟩
    · cases h
      exact ⟨rfl, rfl⟩
    · split at h
      · cases h
        exact ⟨rfl, rfl⟩
      · split at h
        · simp at h
        · cases h
          exact ⟨rfl, rfl⟩
        · rename_i content heq
          cases h
          rcases decodeFrame_cases args content with h1 | h1
          · rw [hc] at h1
            cases h1
          · exact h1

/-- C10 witness: a readiness timeout leaves a caller-supplied `datalen` of
5 and buffer `[7]` untouched. -/
theorem C10_datalen_untouched_witness :
    _prSideChannelRead ⟨false, false, some [7], some 5⟩ ⟨[PollR.timedOut], true, []⟩
        = some ⟨-1, some _PR_SC_CMD_NONE, some _PR_SC_STATUS_TIMEOUT, some 5, some [7], false⟩ ∧
      (some (5 : Int) = some (5 : Int) ∧ some [(7 : Nat)] = some [(7 : Nat)]) :=
  ⟨by decide,
    C10_datalen_untouched ⟨false, false, some [7], some 5⟩ ⟨[PollR.timedOut], true, []⟩
      ⟨-1, some _PR_SC_CMD_NONE, some _PR_SC_STATUS_TIMEOUT, some 5, some [7], false⟩
      (by decide) rfl⟩

theorem charVal_of_lt (b : Nat) (h : b < 128) : charVal b = (b : Int) := by
  unfold charVal
  rw [Nat.mod_eq_of_lt (by omega)]
  rw [if_pos h]

theorem read_delivers (args : ReadArgs) (env : ReadEnv) (content : List Nat)
    (h : ReadDeliversB env content = true)
    (hc : args.commandNull = false) (hs : args.statusNull = false) :
    _prSideChannelRead args env = some (decodeFrame args content) := by
  unfold ReadDeliversB at h
  simp only [Bool.and_eq_true, decide_eq_true_eq] at h
  unfold _prSideChannelRead
  rw [hc, hs]
  simp only [Bool.or_self, Bool.false_eq_true, if_false]
  rw [h.1.1, h.1.2, h.2]
  simp


theorem decodeFrame_frame (c s : Nat) (payload entry : List Nat) (cap : Int)
    (hc1 : 1 ≤ c) (hc2 : c < 9) (hs : s < 128)
    (hlen : payload.length ≤ 65535) (hcap : (payload.length : Int) ≤ cap) :
    decodeFrame ⟨false, false, some entry, some cap⟩ (mkFrame c s payload)
      = ⟨0, some (c : Int), some (s : Int), some (payload.length : Int),
          some (payload ++ entry.drop payload.length), true⟩ := by
  have hlist : mkFrame c s payload
      = c :: s :: (payload.length / 256) :: (payload.length % 256) :: payload := rfl
  have hL : (mkFrame c s payload).length = 4 + payload.length := by
    rw [hlist]; simp; omega
  have htake : List.take 65540 (mkFrame c s payload) = mkFrame c s payload :=
    List.take_of_length_le (by rw [hL]; omega)
  have hb0 : cByte (mkFrame c s payload) 0 = c := rfl
  have hb1 : cByte (mkFrame c s payload) 1 = s := rfl
  have htemplen : ((cByte (mkFrame c s payload) 2 % 256) * 256
      + cByte (mkFrame c s payload) 3 % 256 : Nat) = payload.length := by
    have hb2 : cByte (mkFrame c s payload) 2 = payload.length / 256 := rfl
    have hb3 : cByte (mkFrame c s payload) 3 = payload.length % 256 := rfl
    rw [hb2, hb3]
    omega
  have hdrop : (mkFrame c s payload).drop 4 = payload := rfl
  unfold decodeFrame
  dsimp only
  rw [htake, hb0, hb1, htemplen, hdrop, hL]
  rw [charVal_of_lt c (by omega), charVal_of_lt s hs]
  rw [if_neg (by push_cast; omega)]
  rw [if_neg (by simp only [_PR_SC_CMD_SOFT_RESET, _PR_SC_CMD_MAX]; omega)]
  rw [if_neg (by simp)]
  rw [if_neg (by push_cast; omega)]
  simp

theorem toByte_of_lt (n : Int) (h0 : 0 ≤ n) (h : n < 256) : toByte n = n.toNat := by
  unfold toByte
  rw [Int.emod_eq_of_lt h0 h]

/-- C1 helper: under the validation bounds of `_prSideChannelWrite`, the
frame it builds is the canonical well-formed frame. -/
theorem encodeFrame_eq_mkFrame (c s dl : Int) (data : List Nat)
    (hc : 0 ≤ c ∧ c < 256) (hs : 0 ≤ s ∧ s < 256)
    (hdl : 0 ≤ dl ∧ dl ≤ 65535) (hdata : (data.length : Int) = dl) :
    encodeFrame c s dl data = mkFrame c.toNat s.toNat data := by
  unfold encodeFrame mkFrame
  have hL : data.length = dl.toNat := by omega
  rw [toByte_of_lt c hc.1 hc.2, toByte_of_lt s hs.1 hs.2]
  rw [toByte_of_lt (dl / 256) (by omega) (by omega)]
  rw [toByte_of_lt (dl % 256) (by omega) (by omega)]
  have h1 : (dl / 256).toNat = data.length / 256 := by omega
  have h2 : (dl % 256).toNat = data.length % 256 := by omega
  rw [h1, h2]
  have h3 : (if dl > 0 then data.take dl.toNat else []) = data := by
    rcases lt_or_eq_of_le hdl.1 with h | h
    · rw [if_pos h]
      rw [← hL]
      exact List.take_length _
    · rw [if_neg (by omega)]
      have : data.length = 0 := by omega
      exact (List.length_eq_zero.mp this).symm
  rw [h3]

/-- C1: encoding any valid (command, status, data) triple with
`_prSideChannelWrite`'s frame layout and decoding the resulting frame with
`_prSideChannelRead`'s decode logic (caller capacity at least the data
length) reproduces the command, the status, the data length, and the data
bytes exactly. -/
theorem C1_roundtrip (c s dl cap : Int) (data entry : List Nat) (renv : ReadEnv)
    (hc : _PR_SC_CMD_SOFT_RESET ≤ c ∧ c < _PR_SC_CMD_MAX)
    (hs : _PR_SC_STATUS_NONE ≤ s ∧ s ≤ _PR_SC_STATUS_BUSY)
    (hdl : 0 ≤ dl ∧ dl ≤ 65535)
    (hdata : (data.length : Int) = dl)
    (hcap : dl ≤ cap)
    (hdel : ReadDeliversB renv (encodeFrame c s dl data) = true) :
    _prSideChannelRead ⟨false, false, some entry, some cap⟩ renv
      = some ⟨0, some c, some s, some dl, some (data ++ entry.drop dl.toNat), true⟩ := by
  have hc' : 0 ≤ c ∧ c < 256 := by
    constructor <;> [exact le_trans (by norm_num [_PR_SC_CMD_SOFT_RESET]) hc.1;
      exact lt_of_lt_of_le hc.2 (by norm_num [_PR_SC_CMD_MAX])]
  have hs' : 0 ≤ s ∧ s < 256 := by
    constructor <;> [exact le_trans (by norm_num [_PR_SC_STATUS_NONE]) hs.1;
      exact lt_of_le_of_lt hs.2 (by norm_num [_PR_SC_STATUS_BUSY])]
  rw [read_delivers _ _ _ hdel rfl rfl]
  rw [encodeFrame_eq_mkFrame c s dl data hc' hs' hdl hdata]
  rw [decodeFrame_frame c.toNat s.toNat data entry cap
    (by simp only [_PR_SC_CMD_SOFT_RESET] at hc; omega)
    (by simp only [_PR_SC_CMD_MAX] at hc; omega)
    (by simp only [_PR_SC_STATUS_BUSY] at hs; omega)
    (by omega) (by omega)]
  have e1 : ((c.toNat : Nat) : Int) = c := Int.toNat_of_nonneg hc'.1
  have e2 : ((s.toNat : Nat) : Int) = s := Int.toNat_of_nonneg hs'.1
  have e3 : data.length = dl.toNat := by omega
  rw [e1, e2, hdata, e3]

/-- C1 witness: command 4 (get-device-id), status 1 (ok), data `[1,2,3]`
into a caller buffer of capacity 5 round-trips exactly. -/
theorem C1_roundtrip_witness :
    ReadDeliversB ⟨[PollR.ready], true, [ReadR.rok (encodeFrame 4 1 3 [1, 2, 3])]⟩
        (encodeFrame 4 1 3 [1, 2, 3]) = true ∧
      _prSideChannelRead ⟨false, false, some [9, 9, 9, 9, 9], some 5⟩
          ⟨[PollR.ready], true, [ReadR.rok (encodeFrame 4 1 3 [1, 2, 3])]⟩
        = some ⟨0, some 4, some 1, some 3, some [1, 2, 3, 9, 9], true⟩ :=
  ⟨by decide,
    (C1_roundtrip 4 1 3 5 [1, 2, 3] [9, 9, 9, 9, 9]
        ⟨[PollR.ready], true, [ReadR.rok (encodeFrame 4 1 3 [1, 2, 3])]⟩
        (by decide) (by decide) (by decide) (by decide) (by decide) (by decide)).trans
      (by decide)⟩

/-- Shared helper: a short frame or an out-of-range command byte decodes to
the `CMD_NONE`/`BAD_MESSAGE` failure with return value -1, leaving
`datalen` and the data buffer untouched. -/
theorem decodeFrame_bad (args : ReadArgs) (content : List Nat)
    (h : ((content.take 65540).length : Int) < 4 ∨
      charVal (cByte (content.take 65540) 0) < _PR_SC_CMD_SOFT_RESET ∨
      charVal (cByte (content.take 65540) 0) ≥ _PR_SC_CMD_MAX) :
    decodeFrame args content
      = ⟨-1, some _PR_SC_CMD_NONE, some _PR_SC_STATUS_BAD_MESSAGE,
          args.datalen, args.dataBuf, false⟩ := by
  unfold decodeFrame
  dsimp only
  by_cases h4 : ((content.take 65540).length : Int) < 4
  · rw [if_pos h4]
  · rw [if_neg h4]
    rw [if_pos (h.resolve_left h4)]

/-- Shared helper: a frame whose declared length exceeds the caller's
capacity or the bytes read past the header decodes with `*status =
TOO_BIG`, return value 0, the decoded command stored, and the caller's
`datalen` and data buffer untouched. -/
theorem decodeFrame_too_big (args : ReadArgs) (content : List Nat) (cap : Int)
    (db : List Nat) (hdl : args.datalen = some cap) (hdb : args.dataBuf = some db)
    (h4 : ¬ ((content.take 65540).length : Int) < 4)
    (hc1 : _PR_SC_CMD_SOFT_RESET ≤ charVal (cByte (content.take 65540) 0))
    (hc2 : charVal (cByte (content.take 65540) 0) < _PR_SC_CMD_MAX)
    (hbig : ((((cByte (content.take 65540) 2 % 256) * 256
          + cByte (content.take 65540) 3 % 256 : Nat) : Int) > cap) ∨
        ((((cByte (content.take 65540) 2 % 256) * 256
          + cByte (content.take 65540) 3 % 256 : Nat) : Int)
            > ((content.take 65540).length : Int) - 4)) :
    decodeFrame args content
      = ⟨0, some (charVal (cByte (content.take 65540) 0)),
          some _PR_SC_STATUS_TOO_BIG, some cap, some db, false⟩ := by
  unfold decodeFrame
  dsimp only
  rw [if_neg h4]
  rw [if_neg (by push_neg; exact ⟨hc1, hc2⟩)]
  rw [if_neg (by rw [hdl, hdb]; simp)]
  rw [hdl]
  dsimp only
  rw [if_pos hbig]
  rw [hdb]

/-- C2 (amended): on a short frame or an out-of-range command byte,
`_prSideChannelRead` stores the `none` sentinel through `outCommand`, the
failure reason (`bad-message`) through `outStatus`, and returns -1; but on
the remaining decode failure — a declared length exceeding the caller's
capacity or the bytes actually read — it keeps the decoded command in
`outCommand`, reports `too-big` through `outStatus`, and returns 0, the
success indicator, not -1. -/
theorem C2_decode_failures (args : ReadArgs) (env : ReadEnv) (content : List Nat)
    (hc : args.commandNull = false) (hs : args.statusNull = false)
    (hdel : ReadDeliversB env content = true) :
    (((content.take 65540).length : Int) < 4 ∨
        charVal (cByte (content.take 65540) 0) < _PR_SC_CMD_SOFT_RESET ∨
        charVal (cByte (content.take 65540) 0) ≥ _PR_SC_CMD_MAX →
      _prSideChannelRead args env
        = some ⟨-1, some _PR_SC_CMD_NONE, some _PR_SC_STATUS_BAD_MESSAGE,
            args.datalen, args.dataBuf, false⟩) ∧
    (∀ cap db, args.datalen = some cap → args.dataBuf = some db →
      ¬ ((content.take 65540).length : Int) < 4 →
      _PR_SC_CMD_SOFT_RESET ≤ charVal (cByte (content.take 65540) 0) →
      charVal (cByte (content.take 65540) 0) < _PR_SC_CMD_MAX →
      ((((cByte (content.take 65540) 2 % 256) * 256
          + cByte (content.take 65540) 3 % 256 : Nat) : Int) > cap) ∨
        ((((cByte (content.take 65540) 2 % 256) * 256
          + cByte (content.take 65540) 3 % 256 : Nat) : Int)
            > ((content.take 65540).length : Int) - 4) →
      _prSideChannelRead args env
        = some ⟨0, some (charVal (cByte (content.take 65540) 0)),
            some _PR_SC_STATUS_TOO_BIG, some cap, some db, false⟩) := by
  constructor
  · intro h
    rw [read_delivers _ _ _ hdel hc hs]
    rw [decodeFrame_bad args content h]
  · intro cap db hdl hdb h4 hc1 hc2 hbig
    rw [read_delivers _ _ _ hdel hc hs]
    rw [decodeFrame_too_big args content cap db hdl hdb h4 hc1 hc2 hbig]

/-- C2 witness: instantiating the amended claim at a 4-byte frame declaring
65535 payload bytes against a capacity of 10. -/
theorem C2_decode_failures_witness :
    ReadDeliversB ⟨[PollR.ready], true, [ReadR.rok [6, 1, 255, 255]]⟩ [6, 1, 255, 255] = true ∧
      _prSideChannelRead ⟨false, false, some (List.replicate 10 0), some 10⟩
          ⟨[PollR.ready], true, [ReadR.rok [6, 1, 255, 255]]⟩
        = some ⟨0, some (charVal (cByte (List.take 65540 [6, 1, 255, 255]) 0)),
            some _PR_SC_STATUS_TOO_BIG, some 10, some (List.replicate 10 0), false⟩ :=
  ⟨by decide,
    (C2_decode_failures ⟨false, false, some (List.replicate 10 0), some 10⟩
        ⟨[PollR.ready], true, [ReadR.rok [6, 1, 255, 255]]⟩ [6, 1, 255, 255]
        rfl rfl (by decide)).2 10 (List.replicate 10 0) rfl rfl
      (by decide) (by decide) (by decide) (by decide)⟩

/-- C8: a received frame whose declared 2-byte length exceeds the bytes
actually available after the 4-byte header or the caller's buffer capacity
yields the `too-big` status, and the caller's data buffer (and `datalen`)
are left entirely untouched. -/
theorem C8_too_big_buffer_untouched (env : ReadEnv) (content db : List Nat) (cap : Int)
    (hdel : ReadDeliversB env content = true)
    (h4 : ¬ ((content.take 65540).length : Int) < 4)
    (hc1 : _PR_SC_CMD_SOFT_RESET ≤ charVal (cByte (content.take 65540) 0))
    (hc2 : charVal (cByte (content.take 65540) 0) < _PR_SC_CMD_MAX)
    (hbig : ((((cByte (content.take 65540) 2 % 256) * 256
          + cByte (content.take 65540) 3 % 256 : Nat) : Int) > cap) ∨
        ((((cByte (content.take 65540) 2 % 256) * 256
          + cByte (content.take 65540) 3 % 256 : Nat) : Int)
            > ((content.take 65540).length : Int) - 4)) :
    _prSideChannelRead ⟨false, false, some db, some cap⟩ env
      = some ⟨0, some (charVal (cByte (content.take 65540) 0)),
          some _PR_SC_STATUS_TOO_BIG, some cap, some db, false⟩ := by
  rw [read_delivers _ _ _ hdel rfl rfl]
  rw [decodeFrame_too_big _ content cap db rfl rfl h4 hc1 hc2 hbig]

/-- C8 witness: a 5-byte frame declaring 5 payload bytes (only 1 present)
against capacity 2 yields too-big and leaves the buffer `[7, 7]` as is. -/
theorem C8_too_big_buffer_untouched_witness :
    ReadDeliversB ⟨[PollR.ready], true, [ReadR.rok [6, 1, 0, 5, 65]]⟩ [6, 1, 0, 5, 65] = true ∧
      _prSideChannelRead ⟨false, false, some [7, 7], some 2⟩
          ⟨[PollR.ready], true, [ReadR.rok [6, 1, 0, 5, 65]]⟩
        = some ⟨0, some (charVal (cByte (List.take 65540 [6, 1, 0, 5, 65]) 0)),
            some _PR_SC_STATUS_TOO_BIG, some 2, some [7, 7], false⟩ :=
  ⟨by decide,
    C8_too_big_buffer_untouched ⟨[PollR.ready], true, [ReadR.rok [6, 1, 0, 5, 65]]⟩
      [6, 1, 0, 5, 65] [7, 7] 2 (by decide) (by decide) (by decide) (by decide) (by decide)⟩

/-- C4: whenever the send succeeds and a reply is decoded successfully but
carries a command different from the request, `_prSideChannelDoRequest`
returns `bad-message`, regardless of the status carried in the reply. -/
theorem C4_reply_command_mismatch (c : Int) (db : Option (List Nat)) (dl : Option Int)
    (wenv : WriteEnv) (renv : ReadEnv) (wr : WriteResult) (rr : ReadResult)
    (hw : _prSideChannelWrite c _PR_SC_STATUS_NONE none 0 wenv = some wr)
    (hw0 : wr.ret = 0)
    (hr : _prSideChannelRead ⟨false, false, db, dl⟩ renv = some rr)
    (hr0 : rr.ret = 0)
    (hne : rr.command ≠ some c) :
    _prSideChannelDoRequest c db dl wenv renv
      = some ⟨_PR_SC_STATUS_BAD_MESSAGE, rr.datalen, rr.dataBuf⟩ := by
  unfold _prSideChannelDoRequest
  rw [hw]
  dsimp only
  rw [hw0]
  rw [if_neg (by simp)]
  rw [hr]
  dsimp only
  rw [hr0]
  rw [if_neg (by simp)]
  rw [if_pos hne]

/-- C4 witness: request command 4 (get-device-id), reply frame carrying
command 5 (get-state) with an ok status still yields bad-message. -/
theorem C4_reply_command_mismatch_witness :
    _prSideChannelWrite 4 _PR_SC_STATUS_NONE none 0 ⟨PollR.ready, true, [WriteR.wok 4]⟩
        = some ⟨0, true, some 4, some [4, 0, 0, 0]⟩ ∧
      _prSideChannelRead ⟨false, false, some [], some 0⟩
          ⟨[PollR.ready], true, [ReadR.rok [5, 1, 0, 0]]⟩
        = some ⟨0, some 5, some 1, some 0, some [], true⟩ ∧
      _prSideChannelDoRequest 4 (some []) (some 0) ⟨PollR.ready, true, [WriteR.wok 4]⟩
          ⟨[PollR.ready], true, [ReadR.rok [5, 1, 0, 0]]⟩
        = some ⟨_PR_SC_STATUS_BAD_MESSAGE, some 0, some []⟩ :=
  ⟨by decide, by decide,
    C4_reply_command_mismatch 4 (some []) (some 0) ⟨PollR.ready, true, [WriteR.wok 4]⟩
      ⟨[PollR.ready], true, [ReadR.rok [5, 1, 0, 0]]⟩ ⟨0, true, some 4, some [4, 0, 0, 0]⟩
      ⟨0, some 5, some 1, some 0, some [], true⟩ (by decide) rfl (by decide) rfl (by decide)⟩

/-- C7 helper: the back-channel write loop can only report success with the
whole requested byte count transferred. -/
theorem backWriteLoop_success (bytes : Nat) : ∀ (fuel total : Nat)
    (polls : List PollR) (writes : List WriteR) (r : Int) (t : Nat),
    total ≤ bytes → backWriteLoop fuel bytes total polls writes = some (r, t) →
    r = -1 ∨ (r = (bytes : Int) ∧ t = bytes) := by
  intro fuel
  induction fuel with
  | zero =>
    intro total polls writes r t htot h
    simp [backWriteLoop] at h
  | succ fuel ih =>
    intro total polls writes r t htot h
    unfold backWriteLoop at h
    by_cases hlt : total < bytes
    · rw [if_pos hlt] at h
      cases hbw : backWaitLoop polls with
      | none =>
        rw [hbw] at h
        simp at h
      | some pr =>
        rw [hbw] at h
        obtain ⟨p, polls'⟩ := pr
        dsimp only at h
        by_cases hp : p = PollR.ready
        · rw [if_pos hp] at h
          cases writes with
          | nil => simp at h
          | cons w writes' =>
            cases w with
            | wok n => exact ih _ _ _ _ _ (by omega) h
            | werr e =>
              cases e with
              | efatal =>
                simp at h
                exact Or.inl h.1.symm
              | eintr => exact ih _ _ _ _ _ htot h
              | eagain => exact ih _ _ _ _ _ htot h
        · rw [if_neg hp] at h
          simp at h
          exact Or.inl h.1.symm
    · rw [if_neg hlt] at h
      simp at h
      right
      omega

/-- C7 (amended): when `_prBackChannelWrite` returns success its return
value is the full requested count and the sum of the per-write counts it
accepted covers the whole buffer, looping over partial writes as needed;
its failure indicator is the bare -1 with no byte count.  A side-channel
message send, in contrast, performs a single write of the
`length + 4`-byte frame, retried only on transient errors: its success
only guarantees that this one write returned a non-negative count, which
may cover less than the full frame (see the counterexample). -/
theorem C7_full_transfer_on_success :
    (∀ (bytes : Nat) (polls : List PollR) (writes : List WriteR) (r : Int) (t : Nat),
      _prBackChannelWrite bytes polls writes = some (r, t) →
      r = -1 ∨ (r = (bytes : Int) ∧ t = bytes)) ∧
    (∀ (c s dl : Int) (d : Option (List Nat)) (env : WriteEnv) (res : WriteResult),
      _prSideChannelWrite c s d dl env = some res → res.ret = 0 →
      res.written.isSome = true ∧ res.frame = some (encodeFrame c s dl (d.getD []))) := by
  constructor
  · intro bytes polls writes r t h
    exact backWriteLoop_success bytes _ 0 polls writes r t (Nat.zero_le _) h
  · intro c s dl d env res h h0
    unfold _prSideChannelWrite at h
    split at h
    · cases h
      cases h0
    · split at h
      · cases h
        cases h0
      · split at h
        · cases h
          cases h0
        · split at h
          · cases h
          · cases h
            cases h0
          · cases h
            exact ⟨rfl, rfl⟩

/-- C7 witness: five bytes against a 2-bytes-per-attempt descriptor go out
in full over three write calls on the back channel; a successful
side-channel send exposes its single accepted count and its frame. -/
theorem C7_full_transfer_on_success_witness :
    _prBackChannelWrite 5 [PollR.ready, PollR.ready, PollR.ready]
        [WriteR.wok 2, WriteR.wok 2, WriteR.wok 1] = some (5, 5) ∧
      ((5 : Int) = -1 ∨ ((5 : Int) = ((5 : Nat) : Int) ∧ (5 : Nat) = 5)) ∧
      _prSideChannelWrite 2 0 (some [1]) 1 ⟨PollR.ready, true, [WriteR.wok 5]⟩
        = some ⟨0, true, some 5, some [2, 0, 0, 1, 1]⟩ ∧
      ((some (5 : Nat)).isSome = true ∧
        (some [(2 : Nat), 0, 0, 1, 1] : Option (List Nat))
          = some (encodeFrame 2 0 1 ((some [1]).getD []))) :=
  ⟨by decide,
    C7_full_transfer_on_success.1 5 [PollR.ready, PollR.ready, PollR.ready]
      [WriteR.wok 2, WriteR.wok 2, WriteR.wok 1] 5 5 (by decide),
    by decide,
    C7_full_transfer_on_success.2 2 0 1 (some [1]) ⟨PollR.ready, true, [WriteR.wok 5]⟩
      ⟨0, true, some 5, some [2, 0, 0, 1, 1]⟩ (by decide) rfl⟩

theorem cStrlen_cons_ne (a : Nat) (o : List Nat) (ha : a ≠ 0) :
    cStrlen (a :: o) = cStrlen o + 1 := by
  unfold cStrlen
  simp [List.takeWhile_cons, ha]

theorem cStrlen_cons_zero (o : List Nat) : cStrlen (0 :: o) = 0 := by
  unfold cStrlen
  simp [List.takeWhile_cons]

theorem cStrlen_append_zero (o rest : List Nat) (h : 0 ∉ o) :
    cStrlen (o ++ 0 :: rest) = o.length := by
  induction o with
  | nil => simp [cStrlen_cons_zero]
  | cons a o ih =>
    have ha : a ≠ 0 := fun he => h (by simp [he])
    have h' : 0 ∉ o := fun hm => h (by simp [hm])
    rw [List.cons_append, cStrlen_cons_ne a _ ha, ih h', List.length_cons]

theorem cStrlen_all (o : List Nat) (h : 0 ∉ o) : cStrlen o = o.length := by
  induction o with
  | nil => rfl
  | cons a o ih =>
    have ha : a ≠ 0 := fun he => h (by simp [he])
    have h' : 0 ∉ o := fun hm => h (by simp [hm])
    rw [cStrlen_cons_ne a _ ha, ih h', List.length_cons]

theorem cStrncmpZ_payload (root : List Nat) (hroot : 0 ∉ root) :
    ∀ (o rest : List Nat), 0 ∉ o →
      (cStrncmpZ (o ++ 0 :: rest) root root.length = true ↔ o.take root.length = root) := by
  induction root with
  | nil =>
    intro o rest ho
    simp [cStrncmpZ]
  | cons r rs ih =>
    intro o rest ho
    have hr : r ≠ 0 := fun he => hroot (by simp [he])
    have hrs : 0 ∉ rs := fun hm => hroot (by simp [hm])
    cases o with
    | nil =>
      rw [List.length_cons, List.nil_append]
      have h0r : ¬ ((0 : Nat) = r) := fun he => hr he.symm
      simp [cStrncmpZ, h0r]
    | cons a o' =>
      have ho' : 0 ∉ o' := fun hm => ho (by simp [hm])
      have ha : a ≠ 0 := fun he => ho (by simp [he])
      rw [List.length_cons, List.cons_append]
      by_cases har : a = r
      · subst har
        have hstep : cStrncmpZ (a :: (o' ++ 0 :: rest)) (a :: rs) (rs.length + 1)
            = cStrncmpZ (o' ++ 0 :: rest) rs rs.length := by
          simp [cStrncmpZ, ha]
        rw [hstep, ih hrs o' rest ho']
        simp [List.take_succ_cons]
      · have hstep : cStrncmpZ (a :: (o' ++ 0 :: rest)) (r :: rs) (rs.length + 1) = false := by
          simp [cStrncmpZ, har]
        rw [hstep]
        simp [List.take_succ_cons, har]

theorem cStrcmpZ_payload : ∀ (o last rest : List Nat), 0 ∉ o → 0 ∉ last →
    (cStrcmpZ (o ++ 0 :: rest) last = true ↔ o = last) := by
  intro o
  induction o with
  | nil =>
    intro last rest ho hl
    cases last with
    | nil => simp [cStrcmpZ]
    | cons l ls =>
      have hlne : l ≠ 0 := fun he => hl (by simp [he])
      have h0l : (0 : Nat) ≠ l := hlne.symm
      rw [List.nil_append]
      simp [cStrcmpZ, h0l]
  | cons a o' ih =>
    intro last rest ho hl
    have ha : a ≠ 0 := fun he => ho (by simp [he])
    have ho' : 0 ∉ o' := fun hm => ho (by simp [hm])
    cases last with
    | nil =>
      rw [List.cons_append]
      simp [cStrcmpZ, ha]
    | cons l ls =>
      have hls : 0 ∉ ls := fun hm => hl (by simp [hm])
      rw [List.cons_append]
      by_cases hal : a = l
      · subst hal
        have hstep : cStrcmpZ (a :: (o' ++ 0 :: rest)) (a :: ls)
            = cStrcmpZ (o' ++ 0 :: rest) ls := by
          simp [cStrcmpZ, ha]
        rw [hstep, ih ls rest ho' hls]
        simp
      · have hstep : cStrcmpZ (a :: (o' ++ 0 :: rest)) (l :: ls) = false := by
          simp [cStrcmpZ, hal]
        rw [hstep]
        simp [hal]

theorem getD_append_le (o t : List Nat) (n : Nat) (h : n ≤ o.length) :
    (o ++ 0 :: t).getD n 0 = o.getD n 0 := by
  rcases Nat.lt_or_ge n o.length with hlt | hge
  · rw [List.getD_append _ _ _ _ hlt]
  · have he : n = o.length := le_antisymm h hge
    subst he
    rw [List.getD_eq_default _ _ (le_refl _)]
    have : (o ++ 0 :: t).getD o.length 0 = (0 :: t).getD 0 0 := by
      rw [List.getD_append_right _ _ _ _ (le_refl _), Nat.sub_self]
    rw [this]
    rfl

theorem set_append_add (xs ys : List Nat) (k a : Nat) :
    (xs ++ ys).set (xs.length + k) a = xs ++ ys.set k a := by
  induction xs with
  | nil => simp
  | cons x xs ih =>
    simp only [List.cons_append, List.length_cons]
    rw [Nat.succ_add]
    simp [List.set, ih]

theorem take_set_of_le (xs : List Nat) : ∀ (i n a : Nat), n ≤ i →
    (xs.set i a).take n = xs.take n := by
  induction xs with
  | nil => intro i n a h; simp
  | cons x xs ih =>
    intro i n a h
    cases i with
    | zero =>
      have : n = 0 := Nat.le_zero.mp h
      subst this
      simp
    | succ i =>
      cases n with
      | zero => simp
      | succ n =>
        simp only [List.set]
        rw [List.take_succ_cons, List.take_succ_cons, ih i n a (by omega)]

/-- Shared helper: with valid arguments and an oracle whose readiness call
reports ready, whose allocation succeeds, and whose write loop ends in a
successful write, `_prSideChannelWrite` returns 0 and hands the encoded
frame to the descriptor. -/
theorem write_ok (c s : Int) (d : Option (List Nat)) (dl : Int) (env : WriteEnv)
    (hc : _PR_SC_CMD_SOFT_RESET ≤ c ∧ c < _PR_SC_CMD_MAX)
    (hdl : 0 ≤ dl ∧ dl ≤ 65535) (hd : dl > 0 → d ≠ none)
    (henv : WEnvOkB env = true) :
    ∃ n, _prSideChannelWrite c s d dl env
      = some ⟨0, true, some n, some (encodeFrame c s dl (d.getD []))⟩ := by
  unfold WEnvOkB at henv
  simp only [Bool.and_eq_true, decide_eq_true_eq] at henv
  obtain ⟨⟨hp, hm⟩, hw⟩ := henv
  unfold writeLoopOk at hw
  unfold _prSideChannelWrite
  rw [if_neg (by push_neg; exact ⟨hc.1, hc.2, hdl.1, hdl.2, fun h => hd h⟩)]
  rw [if_neg (by rw [hp]; simp)]
  rw [hm]
  rw [if_neg (by simp)]
  cases hws : writeSyscallLoop env.writes with
  | none => rw [hws] at hw; simp at hw
  | some o =>
    cases o with
    | none => rw [hws] at hw; simp at hw
    | some n =>
      exact ⟨min n (encodeFrame c s dl (d.getD [])).length, rfl⟩

/-- C6: for a successful snmp-get whose ok reply has the form
`oid\0value`, the client copies only the value portion into the caller's
buffer, null-terminates it, and sets the output length to the value's byte
count excluding the terminator; when value-plus-terminator exceeds the
caller's capacity it returns `too-big` and copies no reply bytes (the
buffer keeps its entry contents except for the terminating zero stored in
its first byte before any I/O). -/
theorem C6_snmpget_value_extraction (os roid value db scratch : List Nat) (cap : Int)
    (wenv : WriteEnv) (renv : ReadEnv)
    (hos1 : os ≠ []) (hos2 : 0 ∉ os) (hos3 : os.length ≤ 65534)
    (hcap : 2 ≤ cap)
    (hroid : 0 ∉ roid)
    (hlen : roid.length + 1 + value.length ≤ 65535)
    (hw : WEnvOkB wenv = true)
    (hr : ReadDeliversB renv (mkFrame 6 1 (roid ++ 0 :: value)) = true) :
    ((value.length : Int) + 1 > cap →
      _prSideChannelSNMPGet (some os) (some db) (some cap) ⟨wenv, true, scratch, renv⟩
        = some ⟨_PR_SC_STATUS_TOO_BIG, some cap, some (db.set 0 0)⟩) ∧
    ((value.length : Int) + 1 ≤ cap →
      _prSideChannelSNMPGet (some os) (some db) (some cap) ⟨wenv, true, scratch, renv⟩
        = some ⟨_PR_SC_STATUS_OK, some (value.length : Int),
            some (value ++ 0 :: (db.set 0 0).drop (value.length + 1))⟩) := by
  have hhead : cByte os 0 ≠ 0 := by
    cases os with
    | nil => exact absurd rfl hos1
    | cons a os' =>
      intro he
      exact hos2 (by simp [cByte, List.getD] at he; simp [he])
  have hosl : cStrlen os = os.length := cStrlen_all os hos2
  obtain ⟨n, hwr⟩ := write_ok _PR_SC_CMD_SNMP_GET _PR_SC_STATUS_NONE
    (some (os.take (cStrlen os) ++ [0])) ((cStrlen os : Int) + 1) wenv
    (by constructor <;> norm_num [_PR_SC_CMD_SNMP_GET, _PR_SC_CMD_SOFT_RESET, _PR_SC_CMD_MAX])
    (by constructor <;> [positivity; (rw [hosl]; push_cast; omega)])
    (fun _ => by simp) hw
  have hL : (roid ++ 0 :: value).length = roid.length + 1 + value.length := by
    simp
    omega
  have hread : _prSideChannelRead ⟨false, false, some scratch, some 65540⟩ renv
      = some ⟨0, some ((6 : Nat) : Int), some ((1 : Nat) : Int),
          some ((roid ++ 0 :: value).length : Int),
          some ((roid ++ 0 :: value) ++ scratch.drop (roid ++ 0 :: value).length), true⟩ := by
    rw [read_delivers _ _ _ hr rfl rfl]
    rw [decodeFrame_frame 6 1 (roid ++ 0 :: value) scratch 65540 (by omega) (by omega)
      (by omega) (by rw [hL]; omega) (by rw [hL]; push_cast; omega)]
  have hrbuf : (roid ++ 0 :: value) ++ scratch.drop (roid ++ 0 :: value).length
      = roid ++ 0 :: (value ++ scratch.drop (roid ++ 0 :: value).length) := by
    rw [List.append_assoc]
    rfl
  have hstr : cStrlen ((roid ++ 0 :: value) ++ scratch.drop (roid ++ 0 :: value).length)
      = roid.length := by
    rw [hrbuf]
    exact cStrlen_append_zero _ _ hroid
  have hvlen : ((roid ++ 0 :: value).length : Int) - ((roid.length : Int) + 1)
      = (value.length : Int) := by
    rw [hL]
    push_cast
    ring
  have htn1 : ((roid.length : Int) + 1).toNat = roid.length + 1 := by omega
  have htn2 : ((value.length : Int)).toNat = value.length := by omega
  have hdropv : ((roid ++ 0 :: value) ++ scratch.drop (roid ++ 0 :: value).length).drop
        (roid.length + 1)
      = value ++ scratch.drop (roid ++ 0 :: value).length := by
    rw [hrbuf]
    have h1 : roid ++ 0 :: (value ++ scratch.drop (roid ++ 0 :: value).length)
        = (roid ++ [0]) ++ (value ++ scratch.drop (roid ++ 0 :: value).length) := by
      simp
    rw [h1]
    have h2 : roid.length + 1 = (roid ++ [0]).length := by simp
    rw [h2]
    exact List.drop_left _ _
  have htakev : (value ++ scratch.drop (roid ++ 0 :: value).length).take value.length
      = value := List.take_left _ _
  have hmain : _prSideChannelSNMPGet (some os) (some db) (some cap) ⟨wenv, true, scratch, renv⟩
      = if (value.length : Int) + 1 > cap then
          some ⟨_PR_SC_STATUS_TOO_BIG, some cap, some (db.set 0 0)⟩
        else
          some ⟨(1 : Nat), some (value.length : Int),
            some (value ++ 0 :: (db.set 0 0).drop (value.length + 1))⟩ := by
    unfold _prSideChannelSNMPGet
    rw [if_neg (by
      push_neg
      refine ⟨by simp, by simpa using hhead, by simp, by simp, by simp; omega⟩)]
    dsimp only [Option.getD_some]
    rw [hwr]
    dsimp only
    rw [if_neg (by simp)]
    rw [if_neg (by simp)]
    rw [hread]
    dsimp only
    rw [if_neg (by simp)]
    rw [if_neg (by norm_num [_PR_SC_CMD_SNMP_GET])]
    rw [if_pos (by norm_num [_PR_SC_STATUS_OK])]
    dsimp only [Option.getD_some]
    rw [hstr, hvlen, htn1, htn2, hdropv, htakev]
  constructor
  · intro hfit
    rw [hmain, if_pos hfit]
  · intro hfit
    rw [hmain, if_neg (by omega)]
    norm_num [_PR_SC_STATUS_OK]

/-- C6 witness: OID ".1", reply ".1.2\0AB" into a capacity-5 buffer yields
ok, length 2, and buffer "AB\0" followed by the untouched tail. -/
theorem C6_snmpget_value_extraction_witness :
    (((2 : Nat) : Int) + 1 ≤ 5) ∧
      _prSideChannelSNMPGet (some [46, 49]) (some [9, 9, 9, 9, 9]) (some 5)
          ⟨⟨PollR.ready, true, [WriteR.wok 1]⟩, true, [],
            ⟨[PollR.ready], true, [ReadR.rok (mkFrame 6 1 ([46, 49, 46, 50] ++ 0 :: [65, 66]))]⟩⟩
        = some ⟨_PR_SC_STATUS_OK, some 2, some [65, 66, 0, 9, 9]⟩ :=
  ⟨by decide,
    ((C6_snmpget_value_extraction [46, 49] [46, 49, 46, 50] [65, 66] [9, 9, 9, 9, 9] [] 5
        ⟨PollR.ready, true, [WriteR.wok 1]⟩
        ⟨[PollR.ready], true, [ReadR.rok (mkFrame 6 1 ([46, 49, 46, 50] ++ 0 :: [65, 66]))]⟩
        (by decide) (by decide) (by decide) (by decide) (by decide) (by decide) (by decide)
        (by decide)).2 (by decide)).trans (by decide)⟩

/-- Shared helper: on a walk reply buffer of the form `oid\0rest`, the C
guard of the walk loop (prefix `strncmp`, separator byte, `strcmp` repeat
check) holds exactly when the returned OID begins with the root followed
by `.` (byte 46) and differs from the previous OID. -/
theorem walk_pass_iff (root o t last : List Nat) (hroot : 0 ∉ root) (ho : 0 ∉ o)
    (hl : 0 ∉ last) :
    (cStrncmpZ (o ++ 0 :: t) root root.length = true ∧
        cByte (o ++ 0 :: t) root.length = 46 ∧
        ¬ cStrcmpZ (o ++ 0 :: t) last = true)
      ↔ (o.take root.length = root ∧ o.getD root.length 0 = 46 ∧ o ≠ last) := by
  rw [cStrncmpZ_payload root hroot o t ho, cStrcmpZ_payload o last t ho hl]
  have hbyte : o.take root.length = root →
      cByte (o ++ 0 :: t) root.length = o.getD root.length 0 := by
    intro h1
    have hle : root.length ≤ o.length := by
      by_contra hgt
      push_neg at hgt
      have he : o.take root.length = o := List.take_of_length_le (le_of_lt hgt)
      rw [he] at h1
      rw [h1] at hgt
      exact absurd hgt (lt_irrefl _)
    unfold cByte
    exact getD_append_le o t root.length hle
  constructor
  · rintro ⟨h1, h2, h3⟩
    exact ⟨h1, by rw [← hbyte h1]; exact h2, h3⟩
  · rintro ⟨h1, h2, h3⟩
    exact ⟨h1, by rw [hbyte h1]; exact h2, h3⟩

/-- Shared helper: the walk loop over delivered, well-formed, ok get-next
replies performs exactly the callback invocations the spec's stop
conditions prescribe, then returns ok. -/
theorem walk_loop_spec (root : List Nat) (hroot0 : 0 ∉ root) :
    ∀ (replies : List (List Nat × List Nat)) (envs : List WalkIterEnv)
      (current last rbuf : List Nat) (acc : List WalkCall),
      EnvsDeliver envs replies = true →
      cStrlen current ≤ 65534 →
      0 ∉ last →
      (walkSpecCalls root replies last).length < replies.length →
      snmpWalkLoop root root.length envs current last rbuf acc
        = some (_PR_SC_STATUS_OK,
            acc ++ (walkSpecCalls root replies last).map
              (fun p => ⟨p.1, p.2, (p.2.length : Int)⟩)) := by
  intro replies
  induction replies with
  | nil =>
    intro envs current last rbuf acc hd hcur hl hstop
    simp [walkSpecCalls] at hstop
  | cons p ps ih =>
    intro envs current last rbuf acc hd hcur hl hstop
    cases envs with
    | nil => simp [EnvsDeliver] at hd
    | cons e es =>
      unfold EnvsDeliver at hd
      simp only [Bool.and_eq_true] at hd
      obtain ⟨⟨⟨hwe, hre⟩, hgr⟩, hds⟩ := hd
      unfold GoodReplyB at hgr
      simp only [Bool.and_eq_true, decide_eq_true_eq] at hgr
      obtain ⟨⟨⟨hgo0, hgone⟩, hgolen⟩, hglen⟩ := hgr
      obtain ⟨n, hwr⟩ := write_ok _PR_SC_CMD_SNMP_GET_NEXT _PR_SC_STATUS_NONE
        (some (current.take (cStrlen current) ++ [0])) ((cStrlen current : Int) + 1) e.wenv
        (by constructor <;>
          norm_num [_PR_SC_CMD_SNMP_GET_NEXT, _PR_SC_CMD_SOFT_RESET, _PR_SC_CMD_MAX])
        (by constructor <;> [positivity; (push_cast; omega)])
        (fun _ => by simp) hwe
      have hL : (p.1 ++ 0 :: p.2).length = p.1.length + 1 + p.2.length := by
        simp
        omega
      have hread : _prSideChannelRead ⟨false, false, some rbuf, some 65540⟩ e.renv
          = some ⟨0, some ((7 : Nat) : Int), some ((1 : Nat) : Int),
              some ((p.1 ++ 0 :: p.2).length : Int),
              some ((p.1 ++ 0 :: p.2) ++ rbuf.drop (p.1 ++ 0 :: p.2).length), true⟩ := by
        rw [read_delivers _ _ _ hre rfl rfl]
        rw [decodeFrame_frame 7 1 (p.1 ++ 0 :: p.2) rbuf 65540 (by omega) (by omega)
          (by omega) (by rw [hL]; omega) (by rw [hL]; push_cast; omega)]
      unfold snmpWalkLoop
      dsimp only
      rw [hwr]
      dsimp only
      rw [if_neg (by simp)]
      rw [hread]
      dsimp only
      rw [if_neg (by simp)]
      rw [if_neg (by norm_num [_PR_SC_CMD_SNMP_GET_NEXT])]
      rw [if_pos (by norm_num [_PR_SC_STATUS_OK])]
      have habuf : (p.1 ++ 0 :: p.2) ++ rbuf.drop (p.1 ++ 0 :: p.2).length
          = p.1 ++ 0 :: (p.2 ++ rbuf.drop (p.1 ++ 0 :: p.2).length) := by
        rw [List.append_assoc]
        rfl
      by_cases hpass : p.1.take root.length = root ∧ p.1.getD root.length 0 = 46 ∧ p.1 ≠ last
      · -- the reply passes the subtree and repeat guards: callback round
        rw [if_neg (by
          rw [habuf]
          have h1 := (walk_pass_iff root p.1
            (p.2 ++ rbuf.drop (p.1 ++ 0 :: p.2).length) last hroot0 hgo0 hl).mpr hpass
          push_neg
          exact ⟨h1.1, h1.2.1, by simpa using h1.2.2⟩)]
        simp only [Option.getD_some]
        rw [habuf]
        have hspec : walkSpecCalls root (p :: ps) last
            = p :: walkSpecCalls root ps p.1 := by
          simp only [walkSpecCalls]
          rw [if_pos hpass]
        have hstop' : (walkSpecCalls root ps p.1).length < ps.length := by
          rw [hspec] at hstop
          simp only [List.length_cons] at hstop
          omega
        have hbufEq : (if ((p.1 ++ 0 :: p.2).length : Int) < 8 then
              (p.1 ++ 0 :: (p.2 ++ rbuf.drop (p.1 ++ 0 :: p.2).length)).set
                (((p.1 ++ 0 :: p.2).length : Int)).toNat 0
            else p.1 ++ 0 :: (p.2 ++ rbuf.drop (p.1 ++ 0 :: p.2).length))
            = p.1 ++ 0 :: (if ((p.1 ++ 0 :: p.2).length : Int) < 8 then
              (p.2 ++ rbuf.drop (p.1 ++ 0 :: p.2).length).set p.2.length 0
            else p.2 ++ rbuf.drop (p.1 ++ 0 :: p.2).length) := by
          by_cases h8 : ((p.1 ++ 0 :: p.2).length : Int) < 8
          · rw [if_pos h8, if_pos h8]
            have htn : (((p.1 ++ 0 :: p.2).length : Int)).toNat
                = p.1.length + (1 + p.2.length) := by
              rw [hL]
              omega
            rw [htn]
            rw [set_append_add p.1 _ (1 + p.2.length) 0]
            congr 1
            rw [show 1 + p.2.length = p.2.length + 1 from by omega]
            rfl
          · rw [if_neg h8, if_neg h8]
        rw [hbufEq]
        have ht : (if ((p.1 ++ 0 :: p.2).length : Int) < 8 then
              (p.2 ++ rbuf.drop (p.1 ++ 0 :: p.2).length).set p.2.length 0
            else p.2 ++ rbuf.drop (p.1 ++ 0 :: p.2).length).take p.2.length = p.2 := by
          by_cases h8 : ((p.1 ++ 0 :: p.2).length : Int) < 8
          · rw [if_pos h8, take_set_of_le _ _ _ _ (le_refl _)]
            exact List.take_left _ _
          · rw [if_neg h8]
            exact List.take_left _ _
        generalize (if ((p.1 ++ 0 :: p.2).length : Int) < 8 then
              (p.2 ++ rbuf.drop (p.1 ++ 0 :: p.2).length).set p.2.length 0
            else p.2 ++ rbuf.drop (p.1 ++ 0 :: p.2).length) = t at ht ⊢
        have hstr : cStrlen (p.1 ++ 0 :: t) = p.1.length := cStrlen_append_zero _ _ hgo0
        rw [hstr]
        have htakeo : (p.1 ++ 0 :: t).take p.1.length = p.1 := List.take_left _ _
        rw [htakeo]
        have htake2047 : p.1.take 2047 = p.1 := List.take_of_length_le (by omega)
        rw [htake2047]
        have htoN1 : (((p.1.length : Nat) : Int) + 1).toNat = p.1.length + 1 := by omega
        rw [htoN1]
        have hdropT : (p.1 ++ 0 :: t).drop (p.1.length + 1) = t := by
          have h1 : p.1 ++ 0 :: t = (p.1 ++ [0]) ++ t := by simp
          rw [h1, show p.1.length + 1 = (p.1 ++ [0]).length from by simp]
          exact List.drop_left _ _
        rw [hdropT]
        have hvlen : ((p.1 ++ 0 :: p.2).length : Int) - ((p.1.length : Int) + 1)
            = (p.2.length : Int) := by
          rw [hL]
          push_cast
          ring
        rw [hvlen]
        have htoN2 : ((p.2.length : Int)).toNat = p.2.length := by omega
        rw [htoN2, ht]
        rw [hspec]
        have hrec := ih es (p.1 ++ 0 :: t) p.1 (p.1 ++ 0 :: t)
          (acc ++ [⟨p.1, p.2, (p.2.length : Int)⟩]) hds
          (by rw [hstr]; omega) hgo0 hstop'
        rw [hrec]
        simp
      · -- stop: outside the subtree or a repeat of the previous OID
        rw [if_pos (by
          rw [habuf]
          by_contra hcode
          push_neg at hcode
          exact hpass ((walk_pass_iff root p.1
            (p.2 ++ rbuf.drop (p.1 ++ 0 :: p.2).length) last hroot0 hgo0 hl).mp
            ⟨hcode.1, hcode.2.1, by simpa using hcode.2.2⟩))]
        have hspec : walkSpecCalls root (p :: ps) last = [] := by
          simp only [walkSpecCalls]
          rw [if_neg hpass]
        rw [hspec]
        simp

/-- C5: a walk started at root OID R over delivered ok get-next replies
invokes the callback exactly once per reply whose returned OID begins with
R followed by the `.` separator and differs from the immediately preceding
OID, and stops with ok, without invoking the callback, at the first reply
falling outside the subtree or repeating the previous OID: the callback
trace equals the trace prescribed by the spec's stop conditions
(`walkSpecCalls`). -/
theorem C5_walk_callback_per_subtree_reply (root scratch : List Nat)
    (replies : List (List Nat × List Nat)) (envs : List WalkIterEnv)
    (hroot0 : 0 ∉ root) (hrootne : root ≠ []) (hrootlen : root.length ≤ 65534)
    (hd : EnvsDeliver envs replies = true)
    (hstop : (walkSpecCalls root replies []).length < replies.length) :
    _prSideChannelSNMPWalk (some root) true true scratch envs
      = some (_PR_SC_STATUS_OK,
          (walkSpecCalls root replies []).map
            (fun p => ⟨p.1, p.2, (p.2.length : Int)⟩)) := by
  have hhead : cByte root 0 ≠ 0 := by
    cases root with
    | nil => exact absurd rfl hrootne
    | cons a os' =>
      intro he
      exact hroot0 (by simp [cByte, List.getD] at he; simp [he])
  unfold _prSideChannelSNMPWalk
  rw [if_neg (by
    push_neg
    exact ⟨by simp, by simpa using hhead, by simp⟩)]
  rw [if_neg (by simp)]
  dsimp only [Option.getD_some]
  rw [cStrlen_all root hroot0]
  have hloop := walk_loop_spec root hroot0 replies envs root [] scratch [] hd
    (by rw [cStrlen_all root hroot0]; omega) (by simp) hstop
  rw [hloop]
  simp

/-- C5 witness: the spec's concrete scenario — replies `.1.3.6.1.0`,
`.1.3.6.1.1`, `.1.3.6.2` for root `.1.3.6.1` produce exactly two callback
invocations and an ok return, the third reply stopping the walk because it
leaves the subtree. -/
theorem C5_walk_callback_per_subtree_reply_witness :
    EnvsDeliver
        [⟨⟨PollR.ready, true, [WriteR.wok 1]⟩,
            ⟨[PollR.ready], true,
              [ReadR.rok (mkFrame 7 1 ([46, 49, 46, 51, 46, 54, 46, 49, 46, 48] ++ 0 :: [120]))]⟩⟩,
          ⟨⟨PollR.ready, true, [WriteR.wok 1]⟩,
            ⟨[PollR.ready], true,
              [ReadR.rok (mkFrame 7 1 ([46, 49, 46, 51, 46, 54, 46, 49, 46, 49] ++ 0 :: [121]))]⟩⟩,
          ⟨⟨PollR.ready, true, [WriteR.wok 1]⟩,
            ⟨[PollR.ready], true,
              [ReadR.rok (mkFrame 7 1 ([46, 49, 46, 51, 46, 54, 46, 50] ++ 0 :: [122]))]⟩⟩]
        [([46, 49, 46, 51, 46, 54, 46, 49, 46, 48], [120]),
          ([46, 49, 46, 51, 46, 54, 46, 49, 46, 49], [121]),
          ([46, 49, 46, 51, 46, 54, 46, 50], [122])] = true ∧
      _prSideChannelSNMPWalk (some [46, 49, 46, 51, 46, 54, 46, 49]) true true []
          [⟨⟨PollR.ready, true, [WriteR.wok 1]⟩,
              ⟨[PollR.ready], true,
                [ReadR.rok (mkFrame 7 1 ([46, 49, 46, 51, 46, 54, 46, 49, 46, 48] ++ 0 :: [120]))]⟩⟩,
            ⟨⟨PollR.ready, true, [WriteR.wok 1]⟩,
              ⟨[PollR.ready], true,
                [ReadR.rok (mkFrame 7 1 ([46, 49, 46, 51, 46, 54, 46, 49, 46, 49] ++ 0 :: [121]))]⟩⟩,
            ⟨⟨PollR.ready, true, [WriteR.wok 1]⟩,
              ⟨[PollR.ready], true,
                [ReadR.rok (mkFrame 7 1 ([46, 49, 46, 51, 46, 54, 46, 50] ++ 0 :: [122]))]⟩⟩]
        = some (_PR_SC_STATUS_OK,
            [⟨[46, 49, 46, 51, 46, 54, 46, 49, 46, 48], [120], 1⟩,
              ⟨[46, 49, 46, 51, 46, 54, 46, 49, 46, 49], [121], 1⟩]) :=
  ⟨by decide,
    (C5_walk_callback_per_subtree_reply [46, 49, 46, 51, 46, 54, 46, 49] []
        [([46, 49, 46, 51, 46, 54, 46, 49, 46, 48], [120]),
          ([46, 49, 46, 51, 46, 54, 46, 49, 46, 49], [121]),
          ([46, 49, 46, 51, 46, 54, 46, 50], [122])]
        [⟨⟨PollR.ready, true, [WriteR.wok 1]⟩,
            ⟨[PollR.ready], true,
              [ReadR.rok (mkFrame 7 1 ([46, 49, 46, 51, 46, 54, 46, 49, 46, 48] ++ 0 :: [120]))]⟩⟩,
          ⟨⟨PollR.ready, true, [WriteR.wok 1]⟩,
            ⟨[PollR.ready], true,
              [ReadR.rok (mkFrame 7 1 ([46, 49, 46, 51, 46, 54, 46, 49, 46, 49] ++ 0 :: [121]))]⟩⟩,
          ⟨⟨PollR.ready, true, [WriteR.wok 1]⟩,
            ⟨[PollR.ready], true,
              [ReadR.rok (mkFrame 7 1 ([46, 49, 46, 51, 46, 54, 46, 50] ++ 0 :: [122]))]⟩⟩]
        (by decide) (by decide) (by decide) (by decide) (by decide)).trans (by decide)⟩
